import Mathlib

/-!
A shallow embedding of the portfolio-site components found in the
repository (Navigation, Footer, HomePage, ContactPage, BlogsPage) and
proofs of the specification's claims about them.

The source is React/Next.js UI code.  Pure renders are embedded as Lean
functions from a component's local state to an explicit render structure;
the one effectful handler (the contact form's handleSubmit) is embedded as
a script of effect steps together with an interpreter, so that claims
about delays, scheduled timers, error paths and final state are claims
about running the script.
-/

namespace Portfolio

/- ===================== ContactPage: data model ===================== -/

/-- The formData record of ContactPage (src/components/navigation.tsx,
ContactPage useState): four string fields, all initially empty. -/
structure FormData where
  name : String
  email : String
  subject : String
  message : String
deriving DecidableEq, Repr

/-- The initial formData value: every field the empty string. -/
def emptyFormData : FormData := { name := "", email := "", subject := "", message := "" }

/-- The full local state of ContactPage: formData plus the two boolean
flags isSubmitting and isSubmitted. -/
structure ContactState where
  formData : FormData
  isSubmitting : Bool
  isSubmitted : Bool
deriving DecidableEq, Repr

/-- The initial ContactPage state: empty form, both flags false. -/
def initialContactState : ContactState :=
  { formData := emptyFormData, isSubmitting := false, isSubmitted := false }

/-- The four possible values of the name attribute of the form inputs
(id and name are "name", "email", "subject", "message" in the form JSX). -/
inductive Field where
  | name
  | email
  | subject
  | message
deriving DecidableEq, Repr

/-- Set one field of formData, leaving the rest: the computed-key spread
in setFormData of handleInputChange. -/
def setField (fd : FormData) : Field → String → FormData
  | .name, v => { fd with name := v }
  | .email, v => { fd with email := v }
  | .subject, v => { fd with subject := v }
  | .message, v => { fd with message := v }

/-- Read one field of formData. -/
def getField (fd : FormData) : Field → String
  | .name => fd.name
  | .email => fd.email
  | .subject => fd.subject
  | .message => fd.message

/-- handleInputChange (navigation.tsx lines 149-155): destructures the
event target's name and value and updates that one field of formData via
a functional set; the two flags are untouched. -/
def handleInputChange (s : ContactState) (f : Field) (v : String) : ContactState :=
  { s with formData := setField s.formData f v }

/- ===================== ContactPage: handleSubmit as a script ===================== -/

/-- A synchronous state update performed by a setState call inside
ContactPage handlers. -/
inductive Action where
  | setSubmitting (b : Bool)
  | setSubmitted (b : Bool)
  | setFormData (fd : FormData)
  | updateField (f : Field) (v : String)

/-- Run one setState action on the ContactPage state. -/
def runAction : Action → ContactState → ContactState
  | .setSubmitting b, s => { s with isSubmitting := b }
  | .setSubmitted b, s => { s with isSubmitted := b }
  | .setFormData fd, s => { s with formData := fd }
  | .updateField f v, s => { s with formData := setField s.formData f v }

/-- One step of an effectful handler.  Besides the state updates, the
JS timer API offers awaiting a delay (the awaited Promise wrapping
setTimeout), scheduling a timeout with a callback body, cancelling a
timeout (clearTimeout) and throwing an error; the last two constructors
exist so that their absence from a transcribed script is a meaningful
statement about the source. -/
inductive SubmitStep where
  | preventDefault
  | act (a : Action)
  | awaitDelay (ms : Nat)
  | schedule (delay : Nat) (body : List SubmitStep)
  | cancelTimeout
  | fail (msg : String)

/-- The callback passed to the 3000 ms setTimeout in handleSubmit
(navigation.tsx lines 168-176): setIsSubmitted(false) then reset the
whole formData record to empty strings. -/
def resetTimerBody : List SubmitStep :=
  [ .act (.setSubmitted false),
    .act (.setFormData emptyFormData) ]

/-- handleSubmit (navigation.tsx lines 157-177), transcribed step by
step: preventDefault, setIsSubmitting(true), await a 2000 ms Promise
(the simulated submission), setIsSubmitting(false), setIsSubmitted(true),
then schedule the 3000 ms reset timer. -/
def handleSubmitScript : List SubmitStep :=
  [ .preventDefault,
    .act (.setSubmitting true),
    .awaitDelay 2000,
    .act (.setSubmitting false),
    .act (.setSubmitted true),
    .schedule 3000 resetTimerBody ]

/-- The observable result of running a handler script: final state, the
list of awaited delays, the scheduled timeouts (delay and body), and how
many cancellations were issued. -/
structure RunResult where
  state : ContactState
  awaited : List Nat
  scheduled : List (Nat × List SubmitStep)
  cancels : Nat

/-- Interpreter for handler scripts.  Scheduled bodies are collected, not
run (they fire later); a fail step aborts with an error. -/
def runSteps : List SubmitStep → RunResult → Except String RunResult
  | [], r => .ok r
  | .preventDefault :: rest, r => runSteps rest r
  | .act a :: rest, r => runSteps rest { r with state := runAction a r.state }
  | .awaitDelay ms :: rest, r => runSteps rest { r with awaited := r.awaited ++ [ms] }
  | .schedule d b :: rest, r => runSteps rest { r with scheduled := r.scheduled ++ [(d, b)] }
  | .cancelTimeout :: rest, r => runSteps rest { r with cancels := r.cancels + 1 }
  | .fail msg :: _, _ => .error msg

/-- Run a handler script from a given ContactPage state. -/
def runScript (steps : List SubmitStep) (s : ContactState) : Except String RunResult :=
  runSteps steps { state := s, awaited := [], scheduled := [], cancels := 0 }

/-- Delays of the awaitDelay steps of a script. -/
def scriptAwaitDelays : List SubmitStep → List Nat
  | [] => []
  | .awaitDelay ms :: rest => ms :: scriptAwaitDelays rest
  | _ :: rest => scriptAwaitDelays rest

/-- Delays of the schedule steps of a script. -/
def scriptScheduleDelays : List SubmitStep → List Nat
  | [] => []
  | .schedule d _ :: rest => d :: scriptScheduleDelays rest
  | _ :: rest => scriptScheduleDelays rest

/-- Number of fail steps of a script. -/
def countFailSteps (l : List SubmitStep) : Nat :=
  l.countP fun st => match st with | .fail _ => true | _ => false

/-- Number of cancelTimeout steps of a script. -/
def countCancelSteps (l : List SubmitStep) : Nat :=
  l.countP fun st => match st with | .cancelTimeout => true | _ => false

/- ===================== ContactPage: render ===================== -/

/-- What the contact card's content renders to: either the success view
with its heading, or the form with its current field values, the submit
button label and whether the button is disabled. -/
inductive ContactCardView where
  | success (heading : String)
  | form (data : FormData) (submitLabel : String) (submitDisabled : Bool)
deriving DecidableEq, Repr

/-- The CardContent of the contact form (navigation.tsx lines 242-321):
when isSubmitted, the success view headed "Message Sent Successfully!";
otherwise the form, whose submit button is disabled exactly when
isSubmitting and then reads "Sending..." instead of "Send Message". -/
def renderContactCard (s : ContactState) : ContactCardView :=
  if s.isSubmitted then
    .success "Message Sent Successfully!"
  else
    .form s.formData (if s.isSubmitting then "Sending..." else "Send Message") s.isSubmitting

/-- The disabled attribute of the submit button (navigation.tsx line
307) is exactly isSubmitting. -/
def submitButtonDisabled (s : ContactState) : Bool := s.isSubmitting

/- ===================== ContactPage: event-level transition system ===================== -/

/-- Events a user or a pending timer can deliver to ContactPage. -/
inductive CEvent where
  | input (f : Field) (v : String)
  | submitStart
  | submitComplete
  | resetFire

/-- The event-level small-step semantics of ContactPage.  Guards follow
the JSX and handleSubmit: inputs and the submit button only exist while
the form is rendered (isSubmitted = false); submitStart additionally
requires the button not disabled (isSubmitting = false); submitComplete
is the continuation after the awaited 2000 ms delay, which is in flight
exactly while isSubmitting holds; resetFire is the 3000 ms timer
scheduled at submitComplete, pending exactly while isSubmitted holds. -/
inductive CStep : ContactState → CEvent → ContactState → Prop where
  | input (s : ContactState) (f : Field) (v : String) (h : s.isSubmitted = false) :
      CStep s (.input f v) { s with formData := setField s.formData f v }
  | submitStart (s : ContactState) (h1 : s.isSubmitting = false) (h2 : s.isSubmitted = false) :
      CStep s .submitStart { s with isSubmitting := true }
  | submitComplete (s : ContactState) (h : s.isSubmitting = true) :
      CStep s .submitComplete { s with isSubmitting := false, isSubmitted := true }
  | resetFire (s : ContactState) (h : s.isSubmitted = true) :
      CStep s .resetFire { s with isSubmitted := false, formData := emptyFormData }

/-- Some event takes s to s9. -/
def StepAny (s s9 : ContactState) : Prop := ∃ e, CStep s e s9

/-- States reachable from the initial ContactPage state. -/
def ReachableC (s : ContactState) : Prop :=
  Relation.ReflTransGen StepAny initialContactState s

/- ===================== Navigation ===================== -/

/-- A navigation link: href and label. -/
structure NavLink where
  href : String
  label : String
deriving DecidableEq, Repr

/-- The navItems array of Navigation (navigation.tsx lines 11-15). -/
def navItems : List NavLink :=
  [ { href := "/", label := "Home" },
    { href := "/contact", label := "Contact" },
    { href := "/blogs", label := "Blogs" } ]

/-- The hrefs of the three social links that Navigation and Footer
render (GitHub, LinkedIn, mail). -/
def socialHrefs : List String :=
  [ "https://github.com/Nihalht",
    "https://linkedin.com/in/nihal-h-t",
    "mailto:nihalnihal8951@gmail.com" ]

/-- The mobile navigation menu: its nav links and social hrefs. -/
structure MobileMenu where
  links : List NavLink
  socials : List String
deriving DecidableEq, Repr

/-- What Navigation renders, as a function of its one piece of local
state: the toggle button icon and, when open, the mobile menu. -/
structure NavRender where
  toggleIcon : String
  mobileMenu : Option MobileMenu
deriving DecidableEq, Repr

/-- Navigation useState(false): isOpen starts false. -/
def navInitialOpen : Bool := false

/-- The toggle button's onClick (navigation.tsx line 72):
setIsOpen(not isOpen). -/
def toggleMenu (isOpen : Bool) : Bool := !isOpen

/-- The onClick of each mobile nav link (navigation.tsx line 87):
setIsOpen(false), whatever the current value. -/
def closeMenu (_ : Bool) : Bool := false

/-- The render of Navigation (navigation.tsx lines 17-124): the toggle
icon is X when open and Menu when closed (line 73), and the mobile menu
block is rendered exactly when isOpen (line 79). -/
def renderNavigation (isOpen : Bool) : NavRender :=
  { toggleIcon := if isOpen then "X" else "Menu",
    mobileMenu := if isOpen then some { links := navItems, socials := socialHrefs } else none }

/- ===================== Footer ===================== -/

/-- What Footer renders (footer.tsx): nav links, social hrefs, and the
copyright line. -/
structure FooterRender where
  navLinks : List NavLink
  socials : List String
  copyright : String
deriving DecidableEq, Repr

/-- The render of Footer (footer.tsx lines 4-66); Footer takes no props
and holds no state, so its render is a closed constant. -/
def renderFooter : FooterRender :=
  { navLinks :=
      [ { href := "/", label := "Home" },
        { href := "/contact", label := "Contact" },
        { href := "/blogs", label := "Blogs" } ],
    socials := socialHrefs,
    copyright := "© 2025 Nihal HT. All rights reserved." }

/- ===================== HomePage ===================== -/

/-- A project card of HomePage (src/unnamed/part_001, projects array). -/
structure Project where
  title : String
  year : String
  description : String
  accuracy : String
  icon : String
deriving DecidableEq, Repr

/-- An experience card of HomePage. -/
structure Experience where
  company : String
  location : String
  role : String
  year : String
deriving DecidableEq, Repr

/-- An education card of HomePage; only the first entry carries a
university field. -/
structure Education where
  institution : String
  degree : String
  period : String
  grade : String
  university : Option String
deriving DecidableEq, Repr

/-- The skills object of HomePage (part_001 lines 24-31), in
Object.entries order: category name paired with its skill list. -/
def skills : List (String × List String) :=
  [ ("Programming Languages", ["Python", "C", "SQL", "Solidity"]),
    ("Data Management", ["MySQL", "PostgreSQL", "MongoDB", "NoSQL"]),
    ("AI & Machine Learning", ["TensorFlow", "PyTorch", "scikit-learn", "Keras", "OpenCV", "NLP"]),
    ("Web Development", ["Django", "FastAPI", "RESTful APIs"]),
    ("Tools & Platforms", ["Git/GitHub", "Jupyter", "Streamlit"]),
    ("Blockchain", ["Smart Contracts", "Web3.js", "Ethereum"]) ]

/-- The projects array of HomePage (part_001 lines 33-58). -/
def projects : List Project :=
  [ { title := "AI & Blockchain-Based Student Performance Data Analysis",
      year := "2025",
      description := "Developed an analytics platform combining machine learning with blockchain security, achieving 92% accuracy in performance forecasting. Built a secure data pipeline with smart contracts for tamper-proof records.",
      accuracy := "92%",
      icon := "Brain" },
    { title := "Crop & Fertilizer Prediction Using AI & ML",
      year := "2024",
      description := "Created an agricultural system with 89% accuracy using Random Forest and XGBoost. Integrated weather API and soil data via Flask backend, tailoring predictions to specific crop requirements.",
      accuracy := "89%",
      icon := "Database" },
    { title := "Healthcare AI Diagnostic Assistant",
      year := "2024",
      description := "Developed a CNN-based model with 94% accuracy for medical image analysis using OpenCV. Created FastAPI RESTful API integrated with hospital systems; implemented secure authentication and HIPAA-compliant data handling.",
      accuracy := "94%",
      icon := "Code" } ]

/-- The experience array of HomePage (part_001 lines 60-75). -/
def experience : List Experience :=
  [ { company := "TechCiti Private Limited",
      location := "Bengaluru, India",
      role := "Software Development (AI/ML) Intern",
      year := "2024" },
    { company := "10 SECONDS, Remote (NICC)",
      location := "Remote",
      role := "Cyber Security Intern",
      year := "2022" } ]

/-- The education array of HomePage (part_001 lines 77-97). -/
def education : List Education :=
  [ { institution := "Navkis College of Engineering, Hassan",
      degree := "Bachelor of Engineering in Artificial Intelligence & Data Science",
      period := "2021 – 2025",
      grade := "CGPA: 7.75",
      university := some "VTU" },
    { institution := "Mahesh PU College, Hassan",
      degree := "12th Grade",
      period := "2021",
      grade := "72%",
      university := none },
    { institution := "SVM English High School, Hassan",
      degree := "10th Grade",
      period := "2019",
      grade := "80%",
      university := none } ]

/-- What HomePage renders: the four literal arrays as cards. -/
structure HomeRender where
  skillCards : List (String × List String)
  projectCards : List Project
  experienceCards : List Experience
  educationCards : List Education
deriving DecidableEq, Repr

/-- The render of HomePage (part_001 lines 99-376); HomePage takes no
props and holds no state, so its render is a closed constant over the
literal arrays. -/
def renderHomePage : HomeRender :=
  { skillCards := skills,
    projectCards := projects,
    experienceCards := experience,
    educationCards := education }

/- ===================== BlogsPage: data ===================== -/

/-- A blog post of the blogPosts array (src/app/blogs/page.tsx lines
21-94); icon holds the name of the icon component. -/
structure BlogPost where
  id : Nat
  title : String
  excerpt : String
  category : String
  readTime : String
  publishDate : String
  tags : List String
  featured : Bool
  icon : String
deriving DecidableEq, Repr

/-- Post 1 of blogPosts. -/
def blogPost1 : BlogPost :=
  { id := 1,
    title := "Building Scalable AI Models with TensorFlow and PyTorch",
    excerpt := "A comprehensive guide to developing and deploying machine learning models that can handle production-level workloads. Learn best practices for model architecture, training optimization, and deployment strategies.",
    category := "AI/ML",
    readTime := "8 min read",
    publishDate := "2024-12-15",
    tags := ["TensorFlow", "PyTorch", "Machine Learning", "Scalability"],
    featured := true,
    icon := "Brain" }

/-- Post 2 of blogPosts. -/
def blogPost2 : BlogPost :=
  { id := 2,
    title := "Blockchain Integration in Modern Web Applications",
    excerpt := "Exploring how to integrate blockchain technology into web applications using Web3.js and smart contracts. From wallet connections to transaction handling, this guide covers it all.",
    category := "Blockchain",
    readTime := "12 min read",
    publishDate := "2024-12-10",
    tags := ["Blockchain", "Web3.js", "Smart Contracts", "Ethereum"],
    featured := true,
    icon := "Blocks" }

/-- Post 3 of blogPosts. -/
def blogPost3 : BlogPost :=
  { id := 3,
    title := "Full-Stack Development with Django and React",
    excerpt := "Learn how to build robust full-stack applications using Django for the backend and React for the frontend. Includes authentication, API design, and deployment strategies.",
    category := "Web Development",
    readTime := "15 min read",
    publishDate := "2024-12-05",
    tags := ["Django", "React", "Full-Stack", "API Development"],
    featured := false,
    icon := "Code" }

/-- Post 4 of blogPosts. -/
def blogPost4 : BlogPost :=
  { id := 4,
    title := "Data Pipeline Optimization for ML Workflows",
    excerpt := "Optimizing data pipelines for machine learning workflows using modern tools and techniques. Learn about data preprocessing, feature engineering, and automated ML pipelines.",
    category := "Data Science",
    readTime := "10 min read",
    publishDate := "2024-11-28",
    tags := ["Data Science", "ML Pipelines", "Feature Engineering", "Automation"],
    featured := false,
    icon := "Database" }

/-- Post 5 of blogPosts. -/
def blogPost5 : BlogPost :=
  { id := 5,
    title := "Computer Vision Applications in Healthcare",
    excerpt := "Exploring the applications of computer vision in healthcare, from medical image analysis to diagnostic assistance. Learn about CNN architectures and real-world implementations.",
    category := "AI/ML",
    readTime := "11 min read",
    publishDate := "2024-11-20",
    tags := ["Computer Vision", "Healthcare", "CNN", "Medical Imaging"],
    featured := false,
    icon := "Brain" }

/-- Post 6 of blogPosts. -/
def blogPost6 : BlogPost :=
  { id := 6,
    title := "RESTful API Design Best Practices",
    excerpt := "A comprehensive guide to designing and implementing RESTful APIs that are scalable, maintainable, and developer-friendly. Includes authentication, versioning, and documentation strategies.",
    category := "Web Development",
    readTime := "9 min read",
    publishDate := "2024-11-15",
    tags := ["REST API", "Backend Development", "API Design", "FastAPI"],
    featured := false,
    icon := "Code" }

/-- The blogPosts array (page.tsx lines 21-94), in source order. -/
def blogPosts : List BlogPost :=
  [blogPost1, blogPost2, blogPost3, blogPost4, blogPost5, blogPost6]

/-- The categories array (page.tsx line 96). -/
def categories : List String :=
  ["All", "AI/ML", "Web Development", "Blockchain", "Data Science"]

/-- featuredPosts (page.tsx line 97): the posts whose featured flag is
set, in order. -/
def featuredPosts : List BlogPost := blogPosts.filter fun post => post.featured

/-- recentPosts (page.tsx line 98): the posts whose featured flag is not
set, in order. -/
def recentPosts : List BlogPost := blogPosts.filter fun post => !post.featured

/- ===================== BlogsPage: date formatting ===================== -/

/-- Gregorian leap-year test, as used by the proleptic calendar that
JS Date arithmetic follows. -/
def isLeapYear (y : Nat) : Bool :=
  (y % 4 == 0 && y % 100 != 0) || y % 400 == 0

/-- Days in a month of a given year. -/
def daysInMonth (y m : Nat) : Nat :=
  if m == 2 then (if isLeapYear y then 29 else 28)
  else if m == 4 || m == 6 || m == 9 || m == 11 then 30
  else 31

/-- The civil day before (y, m, d). -/
def prevCivilDay : Nat × Nat × Nat → Nat × Nat × Nat
  | (y, m, d) =>
    if d > 1 then (y, m, d - 1)
    else if m > 1 then (y, m - 1, daysInMonth y (m - 1))
    else (y - 1, 12, 31)

/-- Split a character list on the dash separator. -/
def splitDash : List Char → List (List Char)
  | [] => [[]]
  | c :: cs =>
    let rest := splitDash cs
    if c = '-' then [] :: rest
    else
      match rest with
      | r :: rs => (c :: r) :: rs
      | [] => [[c]]

/-- Read a nonempty all-digit character list as a number. -/
def digitsToNat : List Char → Option Nat
  | [] => none
  | l =>
    if l.all Char.isDigit then
      some (l.foldl (fun acc c => 10 * acc + (c.toNat - 48)) 0)
    else none

/-- Parse a date-only string YYYY-MM-DD into (year, month, day). -/
def parseISODate (s : String) : Option (Nat × Nat × Nat) :=
  match splitDash s.toList with
  | [y, m, d] =>
    match digitsToNat y, digitsToNat m, digitsToNat d with
    | some yn, some mn, some dn => some (yn, mn, dn)
    | _, _, _ => none
  | _ => none

/-- English month name, as produced by the en-US long month format. -/
def monthName : Nat → String
  | 1 => "January"
  | 2 => "February"
  | 3 => "March"
  | 4 => "April"
  | 5 => "May"
  | 6 => "June"
  | 7 => "July"
  | 8 => "August"
  | 9 => "September"
  | 10 => "October"
  | 11 => "November"
  | 12 => "December"
  | _ => ""

/-- formatDate (page.tsx lines 100-106).  In JS, new Date applied to a
date-only string YYYY-MM-DD yields UTC midnight of that civil date, and
toLocaleDateString with locale en-US and options year numeric, month
long, day numeric formats that instant in the HOST time zone, since no
timeZone option is passed.  The host is modelled by tzOffsetMinutes, the
minutes local time is ahead of UTC, with -1440 < tzOffsetMinutes < 1440:
a host behind UTC (negative offset) sees the previous civil day at that
instant; a host at or ahead of UTC sees the same civil day. -/
def formatDate (dateString : String) (tzOffsetMinutes : Int) : String :=
  match parseISODate dateString with
  | some ymd =>
    let (y, m, d) := if tzOffsetMinutes < 0 then prevCivilDay ymd else ymd
    monthName m ++ " " ++ toString d ++ ", " ++ toString y
  | none => "Invalid Date"

/- ===================== BlogsPage: render ===================== -/

/-- A category filter button (page.tsx lines 130-139): label, variant
(default for All, outline otherwise) and its click handler.  The source
attaches no onClick to these buttons, so the handler is none; a handler,
were one present, would update the (here trivial) BlogsPage state. -/
structure CategoryButton where
  label : String
  variant : String
  onClick : Option (Unit → Unit)

/-- Build the button for one category, as the JSX map does. -/
def mkCategoryButton (c : String) : CategoryButton :=
  { label := c,
    variant := if c = "All" then "default" else "outline",
    onClick := none }

/-- The rendered list of category buttons. -/
def categoryButtons : List CategoryButton := categories.map mkCategoryButton

/-- Clicking a button runs its handler on the component state; with no
handler the state is returned unchanged. -/
def dispatchClick (b : CategoryButton) (u : Unit) : Unit :=
  match b.onClick with
  | some f => f u
  | none => u

/-- A rendered post card: title, category, the formatted publish date,
read time, and the shown tags (three on featured cards, two on recent
cards, via tags.slice). -/
structure PostCard where
  title : String
  category : String
  formattedDate : String
  readTime : String
  shownTags : List String
deriving DecidableEq, Repr

/-- Build the card for a post, taking the first k tags. -/
def mkPostCard (tz : Int) (k : Nat) (p : BlogPost) : PostCard :=
  { title := p.title,
    category := p.category,
    formattedDate := formatDate p.publishDate tz,
    readTime := p.readTime,
    shownTags := p.tags.take k }

/-- What BlogsPage renders: the category buttons, the featured cards
(from featuredPosts, three tags each) and the recent cards (from
recentPosts, two tags each).  BlogsPage declares no useState and takes
no props; the only environmental dependence is the host time zone used
by formatDate, made explicit as tz. -/
structure BlogsRender where
  categoryRow : List CategoryButton
  featuredCards : List PostCard
  recentCards : List PostCard

/-- The render of BlogsPage (page.tsx lines 108-317). -/
def renderBlogsPage (tz : Int) : BlogsRender :=
  { categoryRow := categoryButtons,
    featuredCards := featuredPosts.map (mkPostCard tz 3),
    recentCards := recentPosts.map (mkPostCard tz 2) }

/-- BlogsPage declares no useState, so its component state is trivial;
re-rendering after any interaction renders from the same (absent) state. -/
def renderBlogsPageS (tz : Int) (_ : Unit) : BlogsRender := renderBlogsPage tz

/-- Blank out the formatted dates of a render, to isolate the only
environment-dependent part of the output. -/
def eraseDates (r : BlogsRender) : BlogsRender :=
  { r with
    featuredCards := r.featuredCards.map fun c => { c with formattedDate := "" },
    recentCards := r.recentCards.map fun c => { c with formattedDate := "" } }

/- ===================== Whole-program composition ===================== -/

/-- Timer and Promise calls appearing in the Navigation source
(navigation.tsx lines 1-125): there are none; both of its handlers are
plain synchronous setIsOpen calls. -/
def navigationTimerCalls : List Nat := []

/-- Timer and Promise calls appearing in the Footer source (footer.tsx):
none; Footer has no handlers at all. -/
def footerTimerCalls : List Nat := []

/-- Timer and Promise calls appearing in the HomePage source
(src/unnamed/part_001): none; HomePage has no handlers at all. -/
def homePageTimerCalls : List Nat := []

/-- Timer and Promise calls appearing in the BlogsPage source
(src/app/blogs/page.tsx): none; BlogsPage attaches no handlers. -/
def blogsPageTimerCalls : List Nat := []

/-- The render of the whole ContactPage card area as a function of its
local state. -/
def renderContactPage (s : ContactState) : ContactCardView := renderContactCard s

/-- The five components rendered side by side.  None of the five source
components takes props, so each render here is a function of that
component's own local state (Navigation: isOpen; ContactPage: its form
state) or of the host environment (BlogsPage: the time zone), and of
nothing else. -/
structure AppRender where
  nav : NavRender
  home : HomeRender
  contact : ContactCardView
  blogs : BlogsRender
  footer : FooterRender

/-- Render the whole app from the components' local states. -/
def renderApp (navOpen : Bool) (cs : ContactState) (tz : Int) : AppRender :=
  { nav := renderNavigation navOpen,
    home := renderHomePage,
    contact := renderContactPage cs,
    blogs := renderBlogsPage tz,
    footer := renderFooter }

/- ===================== Theorems ===================== -/

/-- C1: every submission of the contact form succeeds: for every starting
state, running the transcribed handleSubmit script returns ok — never an
error — with isSubmitting false and isSubmitted true after the fixed 2000 ms
delay, and that final state renders the success view headed
"Message Sent Successfully!". -/
theorem handleSubmit_always_succeeds (s : ContactState) :
    runScript handleSubmitScript s =
      Except.ok
        { state := { formData := s.formData, isSubmitting := false, isSubmitted := true },
          awaited := [2000],
          scheduled := [(3000, resetTimerBody)],
          cancels := 0 }
    ∧ renderContactCard { formData := s.formData, isSubmitting := false, isSubmitted := true } =
        ContactCardView.success "Message Sent Successfully!" :=
  ⟨rfl, rfl⟩

/-- C2: handleSubmit schedules exactly one reset timer, of duration
3000 ms, and firing that timer from any state sets isSubmitted back to
false and resets all four form fields to the empty string. -/
theorem resetTimer_fires_once_and_resets (s t : ContactState) :
    (runScript handleSubmitScript s).map RunResult.scheduled =
      Except.ok [(3000, resetTimerBody)]
    ∧ runScript resetTimerBody t =
        Except.ok
          { state := { formData := emptyFormData, isSubmitting := t.isSubmitting, isSubmitted := false },
            awaited := [],
            scheduled := [],
            cancels := 0 } :=
  ⟨rfl, rfl⟩

/-- C3: the only asynchronous behavior in the source is the fixed-delay
timer pair of handleSubmit: the script awaits exactly one 2000 ms delay and
schedules exactly one 3000 ms timeout, contains no cancellation and no
failure step (so handleSubmit never throws and always completes), its reset
callback is purely synchronous, and the timer-call inventories of the four
other components are empty. -/
theorem handleSubmit_only_async (s : ContactState) :
    (∃ r, runScript handleSubmitScript s = Except.ok r)
    ∧ scriptAwaitDelays handleSubmitScript = [2000]
    ∧ scriptScheduleDelays handleSubmitScript = [3000]
    ∧ countFailSteps handleSubmitScript = 0
    ∧ countCancelSteps handleSubmitScript = 0
    ∧ scriptAwaitDelays resetTimerBody = []
    ∧ scriptScheduleDelays resetTimerBody = []
    ∧ countFailSteps resetTimerBody = 0
    ∧ countCancelSteps resetTimerBody = 0
    ∧ navigationTimerCalls = []
    ∧ footerTimerCalls = []
    ∧ homePageTimerCalls = []
    ∧ blogsPageTimerCalls = [] :=
  ⟨⟨_, rfl⟩, rfl, rfl, rfl, rfl, rfl, rfl, rfl, rfl, rfl, rfl, rfl, rfl⟩

/-- C9: handleInputChange with target name f and value v sets field f of
formData to v, leaves the other three fields unchanged, and does not touch
isSubmitting or isSubmitted. -/
theorem handleInputChange_frame (s : ContactState) (f : Field) (v : String) :
    getField (handleInputChange s f v).formData f = v
    ∧ (∀ g, g ≠ f → getField (handleInputChange s f v).formData g = getField s.formData g)
    ∧ (handleInputChange s f v).isSubmitting = s.isSubmitting
    ∧ (handleInputChange s f v).isSubmitted = s.isSubmitted := by
  refine ⟨?_, ?_, rfl, rfl⟩
  · cases f <;> rfl
  · intro g hg
    cases f <;> cases g <;> first | rfl | exact absurd rfl hg

/-- Witness for C9 at a concrete input: changing the email field of the
initial state stores the value and leaves the subject field empty. -/
theorem handleInputChange_frame_witness :
    getField (handleInputChange initialContactState Field.email "a").formData Field.email = "a"
    ∧ getField (handleInputChange initialContactState Field.email "a").formData Field.subject = "" :=
  ⟨(handleInputChange_frame initialContactState Field.email "a").1,
   (handleInputChange_frame initialContactState Field.email "a").2.1 Field.subject (by decide)⟩

/-- C10: in every state reachable from the initial ContactPage state,
isSubmitting and isSubmitted are never simultaneously true; while
isSubmitting holds the submit button is disabled, and no submitStart
event can fire from such a state. -/
theorem contact_flags_mutually_exclusive :
    (∀ s, ReachableC s → ¬(s.isSubmitting = true ∧ s.isSubmitted = true))
    ∧ (∀ s, s.isSubmitting = true → submitButtonDisabled s = true)
    ∧ (∀ s s', s.isSubmitting = true → ¬ CStep s CEvent.submitStart s') := by
  refine ⟨?_, fun s h => h, ?_⟩
  · intro s hr
    induction hr with
    | refl => simp [initialContactState]
    | tail _ hstep ih =>
      obtain ⟨e, hstep⟩ := hstep
      cases hstep with
      | input f v h => exact ih
      | submitStart h1 h2 => simp [h2]
      | submitComplete h => simp
      | resetFire h => simp
  · intro s s' h hstep
    cases hstep with
    | submitStart h1 h2 => rw [h1] at h; exact Bool.noConfusion h

/-- Witness for C10: applies the invariant to the initial state (reachable
by the empty path), the disabled-button fact and the no-second-submit fact
to a concrete mid-submission state. -/
theorem contact_flags_mutually_exclusive_witness :
    ¬(initialContactState.isSubmitting = true ∧ initialContactState.isSubmitted = true)
    ∧ submitButtonDisabled
        { formData := emptyFormData, isSubmitting := true, isSubmitted := false } = true
    ∧ ¬ CStep { formData := emptyFormData, isSubmitting := true, isSubmitted := false }
        CEvent.submitStart initialContactState :=
  ⟨contact_flags_mutually_exclusive.1 initialContactState Relation.ReflTransGen.refl,
   contact_flags_mutually_exclusive.2.1 _ rfl,
   contact_flags_mutually_exclusive.2.2 _ _ rfl⟩

/-- C5: Navigation's single boolean state starts false, the toggle button
negates it, the mobile menu is rendered exactly when it is true (with the
nav items and socials), and a mobile nav link click sets it to false. -/
theorem navigation_toggle_spec :
    navInitialOpen = false
    ∧ (∀ b, toggleMenu b = !b)
    ∧ (∀ b, (renderNavigation b).mobileMenu.isSome = b)
    ∧ (∀ b, closeMenu b = false)
    ∧ (renderNavigation true).mobileMenu = some { links := navItems, socials := socialHrefs }
    ∧ (renderNavigation false).mobileMenu = none := by
  refine ⟨rfl, fun b => rfl, fun b => ?_, fun b => rfl, rfl, rfl⟩
  cases b <;> rfl

/-- C7: no component takes props, so each slot of the composed app render
is independent of every other component's state: varying the other
components' states never changes it. -/
theorem components_independent (n n' : Bool) (c c' : ContactState) (t t' : Int) :
    (renderApp n c t).nav = (renderApp n c' t').nav
    ∧ (renderApp n c t).home = (renderApp n' c' t').home
    ∧ (renderApp n c t).contact = (renderApp n' c t').contact
    ∧ (renderApp n c t).blogs = (renderApp n' c' t).blogs
    ∧ (renderApp n c t).footer = (renderApp n' c' t').footer :=
  ⟨rfl, rfl, rfl, rfl, rfl⟩

/-- C4: every category button of BlogsPage carries no click handler,
clicking one leaves the (trivial) component state unchanged and the
rendered page identical, and the five button labels are exactly the
categories array. -/
theorem blogs_category_buttons_inert (tz : Int) (b : CategoryButton)
    (hb : b ∈ (renderBlogsPage tz).categoryRow) :
    b.onClick = none
    ∧ (∀ u, dispatchClick b u = u)
    ∧ (∀ u, renderBlogsPageS tz (dispatchClick b u) = renderBlogsPageS tz u)
    ∧ (renderBlogsPage tz).categoryRow.map CategoryButton.label = categories := by
  have hb' : b ∈ categoryButtons := hb
  obtain ⟨c, hc, rfl⟩ := List.mem_map.1 hb'
  exact ⟨rfl, fun u => rfl, fun u => rfl, rfl⟩

/-- Witness for C4 at the All button: it has no handler and the button
labels are the categories. -/
theorem blogs_category_buttons_inert_witness :
    (mkCategoryButton "All").onClick = none
    ∧ (renderBlogsPage 0).categoryRow.map CategoryButton.label = categories :=
  ⟨(blogs_category_buttons_inert 0 (mkCategoryButton "All")
      (List.mem_map_of_mem mkCategoryButton (by simp [categories]))).1,
   (blogs_category_buttons_inert 0 (mkCategoryButton "All")
      (List.mem_map_of_mem mkCategoryButton (by simp [categories]))).2.2.2⟩

/-- C8: featuredPosts and recentPosts partition blogPosts: a post of
blogPosts is in featuredPosts exactly when its featured flag is set and in
recentPosts exactly when it is not, the two lists share no post, each is a
sublist of blogPosts (so relative order is preserved), and here their
concatenation is blogPosts itself. -/
theorem featured_recent_partition :
    (∀ p, p ∈ blogPosts →
      ((p ∈ featuredPosts ↔ p.featured = true) ∧ (p ∈ recentPosts ↔ p.featured = false)))
    ∧ (∀ p, ¬(p ∈ featuredPosts ∧ p ∈ recentPosts))
    ∧ featuredPosts.Sublist blogPosts
    ∧ recentPosts.Sublist blogPosts
    ∧ featuredPosts ++ recentPosts = blogPosts := by
  refine ⟨?_, ?_, List.filter_sublist _, List.filter_sublist _, rfl⟩
  · intro p hp
    constructor
    · simp only [featuredPosts, List.mem_filter]
      simp [hp]
    · simp only [recentPosts, List.mem_filter]
      simp [hp]
  · rintro p ⟨h1, h2⟩
    simp only [featuredPosts, List.mem_filter] at h1
    simp only [recentPosts, List.mem_filter] at h2
    simp [h1.2] at h2

/-- Witness for C8 at the first post, which is featured: it lies in
featuredPosts and not in recentPosts. -/
theorem featured_recent_partition_witness :
    (blogPost1 ∈ featuredPosts ↔ blogPost1.featured = true)
    ∧ (blogPost1 ∈ recentPosts ↔ blogPost1.featured = false) :=
  featured_recent_partition.1 blogPost1 (by simp [blogPosts])

/-- C6 fails as stated: the BlogsPage output is not independent of all
external input, because formatDate formats the UTC-midnight publish dates
in the host time zone.  At the concrete offset -300 (a host five hours
behind UTC) the rendered page differs from the page rendered at offset 0:
the dates shift to the previous day. -/
theorem blogs_render_depends_on_time_zone :
    renderBlogsPage (-300) ≠ renderBlogsPage 0 := fun h =>
  absurd (congrArg (fun r => r.featuredCards.map PostCard.formattedDate) h) (by decide)

/-- C6 amended: the rendered output of HomePage and BlogsPage is
determined by the hardcoded literal arrays together with the host time
zone, and the time zone influences only the formatted publish dates: with
those erased, the BlogsPage render is the same in every time zone (and
HomePage, which formats no dates, is a closed constant). -/
theorem blogs_dates_only_env_dependence (tz tz' : Int) :
    eraseDates (renderBlogsPage tz) = eraseDates (renderBlogsPage tz')
    ∧ (renderApp false initialContactState tz).home = renderHomePage :=
  ⟨rfl, rfl⟩

end Portfolio
